import Mathlib

/-!
Verification development for the Crack-Scrapper image harvesting pipeline.

Shallow embedding of the core state machines of the repository:
credential rotation (src/api_manager.py), checkpoint/resume
(src/progress_tracker.py), content-hash deduplication (src/downloader.py,
src/utils.py), paged search (src/searcher.py) and the orchestrator loop
(src/main.py).  Machine state is passed explicitly; fallible I/O (HTTP
responses, image downloads, disk writes) is an oracle parameter.
-/

namespace CrackScrapper

/-! ## Credential rotator (src/api_manager.py) -/

/-- State of `APIManager`: an ordered credential pool `credentials`
(`(api_key, cx)` pairs), the current pool index, and the set of indices
marked quota-exhausted. -/
structure APIManager where
  credentials : List (String × String)
  current_index : Nat
  exhausted_indices : Finset Nat
deriving DecidableEq

/-- `APIManager.get_current_credentials`: read the current pair (pure read,
no state change); out-of-range reads defaulted for totality. -/
def get_current_credentials (m : APIManager) : String × String :=
  m.credentials.getD m.current_index ("", "")

/-- `APIManager.get_current_key_number`: 1-based index for display. -/
def get_current_key_number (m : APIManager) : Nat :=
  m.current_index + 1

/-- `APIManager.get_total_keys`. -/
def get_total_keys (m : APIManager) : Nat :=
  m.credentials.length

/-- `APIManager.mark_current_exhausted`: add the current index to the
exhausted set. -/
def mark_current_exhausted (m : APIManager) : APIManager :=
  { m with exhausted_indices := insert m.current_index m.exhausted_indices }

/-- The `for i in range(len(self.credentials))` scan of
`APIManager.rotate_to_next`: starting at offset `i` with `fuel` iterations
left, return the first index `(c + 1 + i) % n` not in `E`. -/
def find_next_index (c n : Nat) (E : Finset Nat) : Nat → Nat → Option Nat
  | _, 0 => none
  | i, fuel + 1 =>
    if (c + 1 + i) % n ∈ E then find_next_index c n E (i + 1) fuel
    else some ((c + 1 + i) % n)

/-- `APIManager.rotate_to_next`: mark the current index exhausted, then scan
forward circularly from `current_index + 1` for the first non-exhausted
index; on success move there and return true, otherwise return false with
the index unchanged. -/
def rotate_to_next (m : APIManager) : Bool × APIManager :=
  let m' := mark_current_exhausted m
  let n := m'.credentials.length
  match find_next_index m'.current_index n m'.exhausted_indices 0 n with
  | some idx => (true, { m' with current_index := idx })
  | none => (false, m')

/-- `APIManager.has_available_keys`:
`len(exhausted_indices) < len(credentials)`. -/
def has_available_keys (m : APIManager) : Bool :=
  decide (m.exhausted_indices.card < m.credentials.length)

/-- `APIManager.reset_exhausted`: clear the exhausted set and return to
index 0. -/
def reset_exhausted (m : APIManager) : APIManager :=
  { m with exhausted_indices := ∅, current_index := 0 }

/-- The mutating `APIManager` operations available to callers, for stating
temporal properties about operation sequences.  `get` covers the pure
readers (`get_current_credentials`, `get_current_key_number`,
`get_total_keys`, `has_available_keys`, `get_status`), which do not change
state. -/
inductive RotOp
  | get
  | mark
  | rotate
deriving DecidableEq

/-- Apply one rotator operation to the state. -/
def applyOp (m : APIManager) : RotOp → APIManager
  | RotOp.get => m
  | RotOp.mark => mark_current_exhausted m
  | RotOp.rotate => (rotate_to_next m).2

/-- Apply a sequence of rotator operations in order. -/
def applyOps (m : APIManager) (ops : List RotOp) : APIManager :=
  ops.foldl applyOp m

/-! ## Progress tracker (src/progress_tracker.py) -/

/-- The `stats` dictionary of `ProgressTracker`. -/
structure Stats where
  images_saved : Nat
  duplicates_skipped : Nat
  errors : Nat
deriving DecidableEq

/-- A filter combination: optional `dateRestrict` and `imgSize` facets
(src/searcher.py `generate_filter_combinations`). -/
structure Filters where
  dateRestrict : Option String
  imgSize : Option String
deriving DecidableEq

/-- One entry of the no-results report.

Modelled from the spec: `ProgressTracker.add_no_results` and
`ProgressTracker.no_results_list` are called from `src/main.py` but their
definitions are not present in `src/progress_tracker.py`; the spec says to
"record a no-results entry (for reporting)" carrying the unit and its query
and filters. -/
structure NoResultEntry where
  query_index : Nat
  filter_index : Nat
  query : String
  filters : Filters
deriving DecidableEq

/-- In-memory state of `ProgressTracker` (its `__init__` fields, plus the
spec-modelled `no_results_list`). -/
structure TrackerState where
  status : String
  started_at : Option String
  updated_at : Option String
  queries_file : Option String
  total_queries : Nat
  total_combinations : Nat
  query_index : Nat
  filter_index : Nat
  completed : Finset (Nat × Nat)
  stats : Stats
  no_results_list : List NoResultEntry
  seen_hashes : Finset String
  image_counter : Nat
deriving DecidableEq

/-- `ProgressTracker.__init__`: the fresh tracker state. -/
def initTracker : TrackerState :=
  { status := "in_progress"
    started_at := none
    updated_at := none
    queries_file := none
    total_queries := 0
    total_combinations := 0
    query_index := 0
    filter_index := 0
    completed := ∅
    stats := ⟨0, 0, 0⟩
    no_results_list := []
    seen_hashes := ∅
    image_counter := 0 }

/-- `ProgressTracker.set_session_info`. -/
def set_session_info (t : TrackerState) (qf : String) (tq tc : Nat) : TrackerState :=
  { t with queries_file := some qf, total_queries := tq, total_combinations := tc }

/-- `ProgressTracker.update_position`. -/
def update_position (t : TrackerState) (qIdx fIdx : Nat) : TrackerState :=
  { t with query_index := qIdx, filter_index := fIdx }

/-- `ProgressTracker.mark_combination_complete`: add the pair to `completed`
and update the position. -/
def mark_combination_complete (t : TrackerState) (qIdx fIdx : Nat) : TrackerState :=
  update_position { t with completed := insert (qIdx, fIdx) t.completed } qIdx fIdx

/-- `ProgressTracker.is_combination_done`. -/
def is_combination_done (t : TrackerState) (qIdx fIdx : Nat) : Bool :=
  decide ((qIdx, fIdx) ∈ t.completed)

/-- `ProgressTracker.add_hash`. -/
def add_hash (t : TrackerState) (h : String) : TrackerState :=
  { t with seen_hashes := insert h t.seen_hashes }

/-- `ProgressTracker.is_hash_seen`. -/
def is_hash_seen (t : TrackerState) (h : String) : Bool :=
  decide (h ∈ t.seen_hashes)

/-- `ProgressTracker.increment_counter`: bump the image counter and return
the new value. -/
def increment_counter (t : TrackerState) : TrackerState × Nat :=
  ({ t with image_counter := t.image_counter + 1 }, t.image_counter + 1)

/-- `ProgressTracker.increment_saved`. -/
def increment_saved (t : TrackerState) : TrackerState :=
  { t with stats := { t.stats with images_saved := t.stats.images_saved + 1 } }

/-- `ProgressTracker.increment_duplicates`. -/
def increment_duplicates (t : TrackerState) : TrackerState :=
  { t with stats := { t.stats with duplicates_skipped := t.stats.duplicates_skipped + 1 } }

/-- `ProgressTracker.increment_errors`. -/
def increment_errors (t : TrackerState) : TrackerState :=
  { t with stats := { t.stats with errors := t.stats.errors + 1 } }

/-- `ProgressTracker.get_stats`: return a copy of the stats. -/
def get_stats (t : TrackerState) : Stats :=
  t.stats

/-- `ProgressTracker.add_no_results`.

Modelled from the spec: the method is called from `src/main.py` but missing
from `src/progress_tracker.py`; per the spec it records a no-results entry
for reporting. -/
def add_no_results (t : TrackerState) (qIdx fIdx : Nat) (query : String)
    (filters : Filters) : TrackerState :=
  { t with no_results_list := t.no_results_list ++ [⟨qIdx, fIdx, query, filters⟩] }

/-- The JSON document written by `ProgressTracker.save` (schema of
`progress.json`). -/
structure CheckpointData where
  status : String
  started_at : Option String
  updated_at : Option String
  queries_file : Option String
  total_queries : Nat
  total_combinations : Nat
  position_query_index : Nat
  position_filter_index : Nat
  completed : List (Nat × Nat)
  stats : Stats
  seen_hashes : List String
  image_counter : Nat
deriving DecidableEq

/-- Lexicographic order on `(query_index, filter_index)` pairs, the order
Python's `sorted` uses on tuples. -/
def pairLex (a b : Nat × Nat) : Prop :=
  a.1 < b.1 ∨ (a.1 = b.1 ∧ a.2 ≤ b.2)

instance : DecidableRel pairLex := fun a b => by
  unfold pairLex; infer_instance

instance : IsTrans (Nat × Nat) pairLex :=
  ⟨by intro a b c hab hbc; unfold pairLex at *; omega⟩

instance : IsAntisymm (Nat × Nat) pairLex :=
  ⟨by
    intro a b hab hba
    unfold pairLex at *
    have h1 : a.1 = b.1 := by omega
    have h2 : a.2 = b.2 := by omega
    exact Prod.ext h1 h2⟩

instance : IsTotal (Nat × Nat) pairLex :=
  ⟨by intro a b; unfold pairLex; omega⟩

/-- `ProgressTracker.save`: set `updated_at` to the current time and write
the full state out.  Returns the mutated tracker and the written document.
`sorted(self.completed)` is the `pairLex` sort; `list(self.seen_hashes)`
enumerates the hash set in an arbitrary order, rendered here as the sorted
one (the claims depend only on the members). -/
def save (t : TrackerState) (now : String) : TrackerState × CheckpointData :=
  let t' := { t with updated_at := some now }
  (t',
    { status := t'.status
      started_at := t'.started_at
      updated_at := t'.updated_at
      queries_file := t'.queries_file
      total_queries := t'.total_queries
      total_combinations := t'.total_combinations
      position_query_index := t'.query_index
      position_filter_index := t'.filter_index
      completed := t'.completed.sort pairLex
      stats := t'.stats
      seen_hashes := t'.seen_hashes.sort (· ≤ ·)
      image_counter := t'.image_counter })

/-- What reading the progress file can yield, restricted to schema-typed
documents: no file, an unreadable or undecodable file (`IOError` /
`json.JSONDecodeError`, the only exceptions `load` catches), or a document
of the checkpoint schema.  Every file written by `ProgressTracker.save` is
of this shape.  Readable valid-JSON files outside the schema are NOT
expressible here; they are covered by the full dynamic model `JsonFile` /
`loadJson` below, which agrees with `load` on schema documents
(`loadJson_agrees_on_schema`) and also carries the uncaught-exception
paths of the source. -/
inductive FileRead
  | absent
  | corrupt
  | parsed (d : CheckpointData)

/-- `ProgressTracker.load` on schema-typed documents: restore state from
the progress file.  Returns false (fresh start, `started_at` stamped) when
the file is absent, unreadable or undecodable, or records a completed
session; otherwise restores every persisted field and returns true.  This
is the restriction of `loadJson` to documents of the checkpoint schema, on
which the source never raises; `loadJson` is the model of `load` on
arbitrary decoded JSON. -/
def load (t : TrackerState) (now : String) (file : FileRead) : Bool × TrackerState :=
  match file with
  | FileRead.absent => (false, { t with started_at := some now })
  | FileRead.corrupt => (false, { t with started_at := some now })
  | FileRead.parsed d =>
    if d.status = "completed" then (false, { t with started_at := some now })
    else
      (true,
        { t with
          status := d.status
          started_at := d.started_at
          updated_at := d.updated_at
          queries_file := d.queries_file
          total_queries := d.total_queries
          total_combinations := d.total_combinations
          query_index := d.position_query_index
          filter_index := d.position_filter_index
          completed := d.completed.toFinset
          stats := d.stats
          seen_hashes := d.seen_hashes.toFinset
          image_counter := d.image_counter })

/-- `ProgressTracker.mark_finished`: set status to completed and save. -/
def mark_finished (t : TrackerState) (now : String) : TrackerState × CheckpointData :=
  save { t with status := "completed" } now

/-- The tail of `main` on the `KeyboardInterrupt` path: the handler calls
`tracker.save()`, and because `all_keys_exhausted` is still False control
falls through to `tracker.mark_finished()`, which saves again with status
completed.  The returned document is the final content of the progress
file. -/
def interruptedEpilogue (t : TrackerState) (now1 now2 : String) :
    TrackerState × CheckpointData :=
  let s1 := save t now1
  mark_finished s1.1 now2

/-! ## Dynamic JSON model of the progress file

`ProgressTracker.load` runs `json.load` and then walks the decoded value
with `data.get(...)`, subscripting and `set(...)`, catching only
`json.JSONDecodeError` and `IOError`.  A readable file holding valid JSON
that is not of the checkpoint shape therefore raises an uncaught
`AttributeError` / `KeyError` / `TypeError`.  The model below embeds the
decoded value verbatim and returns `Except.error ()` exactly where the
source raises an exception it does not catch. -/

/-- A decoded JSON value (`json.load` result). -/
inductive Json
  | null
  | bool (b : Bool)
  | num (n : Int)
  | str (s : String)
  | arr (elems : List Json)
  | obj (fields : List (String × Json))

/-- `dict.get(key)`: the value stored under `key`, if any. -/
def jLookup (fields : List (String × Json)) (key : String) : Option Json :=
  (fields.find? (fun kv => decide (kv.1 = key))).map (fun kv => kv.2)

/-- Whether a value is hashable in Python (lists and dicts are not, so
putting one in a set raises `TypeError`). -/
def jHashable : Json → Bool
  | Json.arr _ => false
  | Json.obj _ => false
  | _ => true

/-- Typed projection of a stored value into a string field of the tracker.
The source stores the raw value without checking; no claim observes a
non-string stored this way, so it is kept by its rendering (never equal to
the literal "completed" for a non-string). -/
def strOfJson : Json → String
  | Json.str s => s
  | Json.num n => toString n
  | Json.bool b => toString b
  | Json.null => "None"
  | Json.arr _ => ""
  | Json.obj _ => ""

/-- Typed projection into a numeric tracker field (source stores the raw
value unchecked; no claim observes a non-numeric one). -/
def natOfJson : Json → Nat
  | Json.num n => n.toNat
  | _ => 0

/-- `dict.get(key, d)` followed by the numeric projection. -/
def natOfJsonD (oj : Option Json) (d : Nat) : Nat :=
  match oj with
  | none => d
  | some j => natOfJson j

/-- `dict.get(key)` into an optional-string tracker field (`None` maps to
`none`). -/
def optStrOfJson : Option Json → Option String
  | none => none
  | some Json.null => none
  | some j => some (strOfJson j)

/-- `data.get('status') == 'completed'`: true only for the exact string. -/
def isCompletedStatus : Option Json → Bool
  | some (Json.str s) => decide (s = "completed")
  | _ => false

/-- `data.get('status', 'in_progress')` stored into `self.status`. -/
def statusOfJsonD : Option Json → String
  | none => "in_progress"
  | some j => strOfJson j

/-- `position = data.get('current_position', {})` then
`position.get('query_index', 0)` / `position.get('filter_index', 0)`:
an absent key defaults to an empty dict, but a stored non-dict (including
`null`) has no `.get` and raises `AttributeError`, which `load` does not
catch. -/
def positionOfJson : Option Json → Except Unit (Nat × Nat)
  | none => Except.ok (0, 0)
  | some (Json.obj fields) =>
    Except.ok (natOfJsonD (jLookup fields "query_index") 0,
      natOfJsonD (jLookup fields "filter_index") 0)
  | some _ => Except.error ()

/-- One item of the `completed` list:
`(item['query_index'], item['filter_index'])`.  A non-dict item or a dict
missing either key raises `TypeError` / `KeyError`; an unhashable value
raises `TypeError` when the tuple enters the set.  None of these are
caught by `load`. -/
def completedEntry : Json → Except Unit (Nat × Nat)
  | Json.obj fields =>
    match jLookup fields "query_index", jLookup fields "filter_index" with
    | some qj, some fj =>
      if jHashable qj && jHashable fj then Except.ok (natOfJson qj, natOfJson fj)
      else Except.error ()
    | _, _ => Except.error ()
  | _ => Except.error ()

/-- The comprehension over the `completed` list, first raise wins. -/
def completedEntries : List Json → Except Unit (List (Nat × Nat))
  | [] => Except.ok []
  | j :: rest => do
    let p ← completedEntry j
    let ps ← completedEntries rest
    Except.ok (p :: ps)

/-- `set((item['query_index'], item['filter_index']) for item in
data.get('completed', []))`.  Iterating a string yields characters and a
dict yields string keys, so a non-empty one raises `TypeError` at the
subscript; non-iterable values raise `TypeError` immediately. -/
def completedOfJson : Option Json → Except Unit (Finset (Nat × Nat))
  | none => Except.ok ∅
  | some (Json.arr elems) => do
    let l ← completedEntries elems
    Except.ok l.toFinset
  | some (Json.str s) => if s.length = 0 then Except.ok ∅ else Except.error ()
  | some (Json.obj fields) => if fields.length = 0 then Except.ok ∅ else Except.error ()
  | some _ => Except.error ()

/-- `set(data.get('seen_hashes', []))`: a list is consumed element-wise
(`TypeError` on an unhashable element), a string yields its characters, a
dict its keys; other values are not iterable and raise `TypeError`. -/
def seenHashesOfJson : Option Json → Except Unit (Finset String)
  | none => Except.ok ∅
  | some (Json.arr elems) =>
    if elems.all jHashable then Except.ok (elems.map strOfJson).toFinset
    else Except.error ()
  | some (Json.str s) => Except.ok (s.toList.map Char.toString).toFinset
  | some (Json.obj fields) => Except.ok (fields.map (fun kv => kv.1)).toFinset
  | some _ => Except.error ()

/-- `self.stats = data.get('stats', default)`: the raw value is stored
without any access, so this never raises inside `load`; the typed
projection reads the three counters of a stored dict and defaults
otherwise (no claim observes a non-dict stored here). -/
def statsOfJson : Option Json → Stats
  | some (Json.obj fields) =>
    ⟨natOfJsonD (jLookup fields "images_saved") 0,
      natOfJsonD (jLookup fields "duplicates_skipped") 0,
      natOfJsonD (jLookup fields "errors") 0⟩
  | _ => ⟨0, 0, 0⟩

/-- What reading and decoding the progress file can yield in full: no
file, a file whose read or decode fails (`IOError` /
`json.JSONDecodeError`, the exceptions `load` catches), or any decoded
JSON value. -/
inductive JsonFile
  | absent
  | unreadable
  | decoded (j : Json)

/-- `ProgressTracker.load` over arbitrary decoded JSON, including its
uncaught-exception paths (`Except.error ()` = the program crashes).
Follows src/progress_tracker.py lines 47-104: absent file and caught
read/decode errors return false with `started_at` stamped; a decoded
non-dict raises at `data.get('status')`; a dict whose status is the
string "completed" returns false; otherwise every field is restored,
raising wherever the source would (`current_position` non-dict,
malformed `completed` items, unhashable or non-iterable values). -/
def loadJson (t : TrackerState) (now : String) (file : JsonFile) :
    Except Unit (Bool × TrackerState) :=
  match file with
  | JsonFile.absent => Except.ok (false, { t with started_at := some now })
  | JsonFile.unreadable => Except.ok (false, { t with started_at := some now })
  | JsonFile.decoded (Json.obj fields) =>
    if isCompletedStatus (jLookup fields "status") then
      Except.ok (false, { t with started_at := some now })
    else do
      let pos ← positionOfJson (jLookup fields "current_position")
      let comps ← completedOfJson (jLookup fields "completed")
      let seen ← seenHashesOfJson (jLookup fields "seen_hashes")
      Except.ok (true,
        { t with
          status := statusOfJsonD (jLookup fields "status")
          started_at := optStrOfJson (jLookup fields "started_at")
          updated_at := optStrOfJson (jLookup fields "updated_at")
          queries_file := optStrOfJson (jLookup fields "queries_file")
          total_queries := natOfJsonD (jLookup fields "total_queries") 0
          total_combinations := natOfJsonD (jLookup fields "total_combinations") 0
          query_index := pos.1
          filter_index := pos.2
          completed := comps
          stats := statsOfJson (jLookup fields "stats")
          seen_hashes := seen
          image_counter := natOfJsonD (jLookup fields "image_counter") 0 })
  | JsonFile.decoded _ => Except.error ()

/-- Render an optional string as JSON (`None` serializes to `null`). -/
def jsonOfOptStr : Option String → Json
  | none => Json.null
  | some s => Json.str s

/-- The JSON document `ProgressTracker.save` writes, as a decoded value:
the schema of section 6 of the spec. -/
def jsonOfCheckpoint (d : CheckpointData) : Json :=
  Json.obj
    [("status", Json.str d.status),
     ("started_at", jsonOfOptStr d.started_at),
     ("updated_at", jsonOfOptStr d.updated_at),
     ("queries_file", jsonOfOptStr d.queries_file),
     ("total_queries", Json.num d.total_queries),
     ("total_combinations", Json.num d.total_combinations),
     ("current_position", Json.obj
       [("query_index", Json.num d.position_query_index),
        ("filter_index", Json.num d.position_filter_index)]),
     ("completed", Json.arr (d.completed.map (fun p =>
       Json.obj [("query_index", Json.num p.1), ("filter_index", Json.num p.2)]))),
     ("stats", Json.obj
       [("images_saved", Json.num d.stats.images_saved),
        ("duplicates_skipped", Json.num d.stats.duplicates_skipped),
        ("errors", Json.num d.stats.errors)]),
     ("seen_hashes", Json.arr (d.seen_hashes.map Json.str)),
     ("image_counter", Json.num d.image_counter)]

/-! ## Downloader (src/downloader.py, src/utils.py) -/

/-- Image byte content. -/
abbrev ByteContent := List Nat

/-- `compute_hash` (src/utils.py): SHA-256 hex digest of the content.
The cryptographic digest is modelled by a deterministic rendering of the
byte content; the claims rely only on the digest being a function of the
content alone (same bytes, same digest, any source URL). -/
def compute_hash (content : ByteContent) : String :=
  toString (List.length content) ++ String.join ((content.map toString).intersperse "-")

/-- The `batch_stats` dictionary of `ImageDownloader`. -/
structure BatchStats where
  saved : Nat
  duplicates : Nat
  errors : Nat
deriving DecidableEq

/-- `ImageDownloader.reset_batch_stats` / the initial batch stats. -/
def batchZero : BatchStats :=
  ⟨0, 0, 0⟩

/-- Filename construction of `ImageDownloader.save_image`.
`sanitize_filename` and `get_file_extension` (src/utils.py) are pure naming
utilities on the URL and content type; the spec treats them as external
collaborator helpers, so they are modelled as plain inclusion of their
inputs. -/
def mkFilename (pfx : String) (counter : Nat) (url : String) (ctype : String) : String :=
  pfx ++ "_" ++ toString counter ++ "_scraped_from_" ++ url ++ ctype

/-- `ImageDownloader.save_image`: compute the content hash; if seen, count a
duplicate and return none; otherwise record the hash, take the next counter
value, and attempt the disk write (`ioOk` is the oracle for the `IOError`
branch): on success count a save and return the filename, on failure count
an error and return none. -/
def save_image (t : TrackerState) (bs : BatchStats) (content : ByteContent)
    (url ctype pfx : String) (ioOk : Bool) :
    TrackerState × BatchStats × Option String :=
  let content_hash := compute_hash content
  if is_hash_seen t content_hash then
    (increment_duplicates t, { bs with duplicates := bs.duplicates + 1 }, none)
  else
    let t1 := add_hash t content_hash
    let tc := increment_counter t1
    let filename := mkFilename pfx tc.2 url ctype
    if ioOk then
      (increment_saved tc.1, { bs with saved := bs.saved + 1 }, some filename)
    else
      (increment_errors tc.1, { bs with errors := bs.errors + 1 }, none)

/-- One search result item (the dict built in `search_images`). -/
structure Item where
  url : String
  source : String
  title : String
deriving DecidableEq

/-- Oracle outcome for one item in `ImageDownloader.process_image`:
the download fails (`download_image` returns None), or it yields content
and a content type together with the disk-write success flag for the
subsequent save. -/
inductive ItemOutcome
  | fail
  | ok (content : ByteContent) (ctype : String) (ioOk : Bool)

/-- `ImageDownloader.process_image`: reject an empty URL, then download via
the oracle and hand the bytes to `save_image`; returns whether the image was
saved. -/
def process_image (env : Item → ItemOutcome) (pfx : String) (t : TrackerState)
    (bs : BatchStats) (img : Item) : TrackerState × BatchStats × Bool :=
  if img.url = "" then
    (increment_errors t, { bs with errors := bs.errors + 1 }, false)
  else
    match env img with
    | ItemOutcome.fail => (increment_errors t, { bs with errors := bs.errors + 1 }, false)
    | ItemOutcome.ok content ctype ioOk =>
      let r := save_image t bs content img.url ctype pfx ioOk
      (r.1, r.2.1, r.2.2.isSome)

/-- `ImageDownloader.process_all`: process every item in order (the boolean
result of each `process_image` is discarded, as in the source). -/
def process_all (env : Item → ItemOutcome) (pfx : String) (t : TrackerState)
    (bs : BatchStats) (images : List Item) : TrackerState × BatchStats :=
  images.foldl
    (fun acc img =>
      let r := process_image env pfx acc.1 acc.2 img
      (r.1, r.2.1))
    (t, bs)

/-! ## Search driver (src/searcher.py) -/

/-- `RESULTS_PER_PAGE` (src/config.py). -/
def RESULTS_PER_PAGE : Nat := 10

/-- `MAX_RESULTS_PER_QUERY` (src/config.py). -/
def MAX_RESULTS_PER_QUERY : Nat := 100

/-- Oracle outcome of one HTTP page request inside `search_images`:
a quota-exceeded signal (HTTP 429, or 403 with a quota error reason), a
transport failure (`requests.exceptions.RequestException`), a body parse
failure (`ValueError` from `.json()`), or a successful page of items. -/
inductive PageResponse
  | quotaExceeded
  | transportError
  | parseError
  | ok (items : List Item)

/-- The `while len(results) < count` loop of `search_images`, consuming one
oracle response per request.  Quota signals rotate the key and retry the
same page; a failed rotation raises `AllKeysExhaustedError` (the
`Except.error` case, also raised when no key is available at loop entry).
Transport and parse failures `break`, returning whatever was accumulated so
far — the source has no separate error return value.  An empty oracle list
ends the loop with the accumulated results (never reached by the adequate
oracles used below). -/
def search_loop (responses : List PageResponse) (m : APIManager) (count : Nat)
    (results : List Item) (start_index : Nat) : Except Unit (List Item) × APIManager :=
  if results.length < count then
    if has_available_keys m then
      match responses with
      | [] => (Except.ok results, m)
      | r :: rest =>
        match r with
        | PageResponse.quotaExceeded =>
          let rm := rotate_to_next m
          if rm.1 then search_loop rest rm.2 count results start_index
          else (Except.error (), rm.2)
        | PageResponse.transportError => (Except.ok results, m)
        | PageResponse.parseError => (Except.ok results, m)
        | PageResponse.ok items =>
          if items.isEmpty then (Except.ok results, m)
          else
            let results' := results ++ items
            let start' := start_index + RESULTS_PER_PAGE
            if MAX_RESULTS_PER_QUERY < start' then (Except.ok results', m)
            else search_loop rest m count results' start'
    else (Except.error (), m)
  else (Except.ok results, m)

/-- `search_images`: clamp the count and run the paging loop from an empty
result list at start index 1.  The query string and filters only populate
the outgoing request parameters and do not affect control flow, so they are
not threaded through the model. -/
def search_images (responses : List PageResponse) (m : APIManager) (count : Nat) :
    Except Unit (List Item) × APIManager :=
  search_loop responses m (min count MAX_RESULTS_PER_QUERY) [] 1

/-! ## Orchestrator (src/main.py) -/

/-- Observable effects of one iteration of the inner loop of `main`:
whether `search_images` ran, whether the downloader ran, whether
`tracker.save()` ran, and whether the iteration broke out of the loop
(all keys exhausted). -/
structure UnitEffects where
  fetched : Bool
  downloaded : Bool
  saved_checkpoint : Bool
  break_loop : Bool
deriving DecidableEq

/-- One iteration of the inner loop of `main` for the work unit
`(qIdx, fIdx)` (src/main.py lines 219-267): skip when already completed;
otherwise update the position and fetch.  `AllKeysExhaustedError` breaks
out of the loop.  Since `search_images` always returns a list, the
`if images is None` branch of the source (lines 242-247) can never be
taken and has no counterpart here.  An empty list records a no-results
entry, marks the unit complete and saves; a non-empty list is downloaded
(after `reset_batch_stats`), then the unit is marked complete and saved. -/
def processUnit (t : TrackerState) (m : APIManager) (qIdx fIdx : Nat) (query : String)
    (filters : Filters) (responses : List PageResponse) (env : Item → ItemOutcome)
    (pfx : String) (count : Nat) (now : String) :
    TrackerState × APIManager × Option CheckpointData × UnitEffects :=
  if is_combination_done t qIdx fIdx then
    (t, m, none, ⟨false, false, false, false⟩)
  else
    let t1 := update_position t qIdx fIdx
    let sm := search_images responses m count
    match sm.1 with
    | Except.error _ => (t1, sm.2, none, ⟨true, false, false, true⟩)
    | Except.ok images =>
      if images.isEmpty then
        let t2 := mark_combination_complete (add_no_results t1 qIdx fIdx query filters) qIdx fIdx
        let sv := save t2 now
        (sv.1, sm.2, some sv.2, ⟨true, false, true, false⟩)
      else
        let pr := process_all env pfx t1 batchZero images
        let t2 := mark_combination_complete pr.1 qIdx fIdx
        let sv := save t2 now
        (sv.1, sm.2, some sv.2, ⟨true, true, true, false⟩)

/-! ## Concrete sample states for witnesses and counterexamples -/

/-- A pool with a single credential, nothing exhausted. -/
def mgr1 : APIManager :=
  ⟨[("key1", "cx1")], 0, ∅⟩

/-- A pool with two credentials, nothing exhausted. -/
def mgr2 : APIManager :=
  ⟨[("key1", "cx1"), ("key2", "cx2")], 0, ∅⟩

/-- A pool with two credentials, index 0 exhausted, currently on index 1. -/
def mgrEx : APIManager :=
  ⟨[("key1", "cx1"), ("key2", "cx2")], 1, {0}⟩

/-- A mid-run tracker: 4 of 6 units done (3 queries, 2 filter combinations),
some stats and hashes accumulated. -/
def sampleTracker : TrackerState :=
  { status := "in_progress"
    started_at := some "2026-01-01T00:00:00"
    updated_at := some "2026-01-01T01:00:00"
    queries_file := some "queries.txt"
    total_queries := 3
    total_combinations := 6
    query_index := 1
    filter_index := 1
    completed := {(0, 0), (0, 1), (1, 0), (1, 1)}
    stats := ⟨7, 2, 1⟩
    no_results_list := []
    seen_hashes := {"h1", "h2"}
    image_counter := 9 }

/-- A sample byte content. -/
def sampleContent : ByteContent :=
  [137, 80, 78, 71]

/-- A corrupt progress file that decodes fine: the JSON document `[]`.
`load` reaches `data.get('status')` on a list and raises
`AttributeError`, which it does not catch. -/
def badListDoc : Json :=
  Json.arr []

/-- A corrupt progress file that decodes fine: an in-progress object whose
`completed` entry is an empty dict.  The comprehension raises `KeyError`
at `item['query_index']`, which `load` does not catch. -/
def badCompletedDoc : Json :=
  Json.obj [("status", Json.str "in_progress"),
    ("completed", Json.arr [Json.obj []])]

/-! ## Rotator lemmas -/

lemma find_next_index_eq_none {c n : Nat} {E : Finset Nat} :
    ∀ fuel i, find_next_index c n E i fuel = none ↔
      ∀ k, k < fuel → (c + 1 + (i + k)) % n ∈ E := by
  intro fuel
  induction fuel with
  | zero => intro i; simp [find_next_index]
  | succ fuel ih =>
    intro i
    by_cases hmem : (c + 1 + i) % n ∈ E
    · rw [find_next_index, if_pos hmem, ih (i + 1)]
      constructor
      · intro h k hk
        cases k with
        | zero => simpa using hmem
        | succ k =>
          have := h k (by omega)
          have harith : i + 1 + k = i + (k + 1) := by omega
          rwa [harith] at this
      · intro h k hk
        have := h (k + 1) (by omega)
        have harith : i + (k + 1) = i + 1 + k := by omega
        rwa [harith] at this
    · rw [find_next_index, if_neg hmem]
      simp only [reduceCtorEq, false_iff, not_forall]
      exact ⟨0, by omega, by simpa using hmem⟩

lemma find_next_index_eq_some {c n : Nat} {E : Finset Nat} :
    ∀ fuel i v, find_next_index c n E i fuel = some v →
      ∃ k, k < fuel ∧ v = (c + 1 + (i + k)) % n ∧ v ∉ E ∧
        ∀ k', k' < k → (c + 1 + (i + k')) % n ∈ E := by
  intro fuel
  induction fuel with
  | zero => intro i v h; simp [find_next_index] at h
  | succ fuel ih =>
    intro i v h
    by_cases hmem : (c + 1 + i) % n ∈ E
    · rw [find_next_index, if_pos hmem] at h
      obtain ⟨k, hk, hv, hvnot, hmin⟩ := ih (i + 1) v h
      refine ⟨k + 1, by omega, ?_, hvnot, ?_⟩
      · have harith : i + (k + 1) = i + 1 + k := by omega
        rwa [harith]
      · intro k' hk'
        cases k' with
        | zero => simpa using hmem
        | succ k' =>
          have := hmin k' (by omega)
          have harith : i + 1 + k' = i + (k' + 1) := by omega
          rwa [harith] at this
    · rw [find_next_index, if_neg hmem] at h
      refine ⟨0, by omega, ?_, ?_, by omega⟩
      · simpa using h.symm
      · cases h; simpa using hmem

/-- Every residue below `n` is reached by the circular scan
`(c + 1 + i) % n` within `n` steps. -/
lemma circular_scan_surjective {n : Nat} (hn : 0 < n) (c j : Nat) (hj : j < n) :
    ∃ i, i < n ∧ (c + 1 + i) % n = j := by
  have ha' : (c + 1) % n < n := Nat.mod_lt _ hn
  have key : ∀ i, (c + 1 + i) % n = ((c + 1) % n + i) % n := by
    intro i
    rw [Nat.mod_add_mod]
  by_cases hcase : j < (c + 1) % n
  · refine ⟨j + n - (c + 1) % n, by omega, ?_⟩
    rw [key]
    have heq : (c + 1) % n + (j + n - (c + 1) % n) = j + n := by omega
    rw [heq, Nat.add_mod_right, Nat.mod_eq_of_lt hj]
  · refine ⟨j - (c + 1) % n, by omega, ?_⟩
    rw [key]
    have heq : (c + 1) % n + (j - (c + 1) % n) = j := by omega
    rw [heq, Nat.mod_eq_of_lt hj]

lemma rotate_to_next_of_none {m : APIManager}
    (h : find_next_index m.current_index m.credentials.length
        (insert m.current_index m.exhausted_indices) 0 m.credentials.length = none) :
    rotate_to_next m = (false, mark_current_exhausted m) := by
  simp only [rotate_to_next, mark_current_exhausted] at h ⊢
  rw [h]

lemma rotate_to_next_of_some {m : APIManager} {idx : Nat}
    (h : find_next_index m.current_index m.credentials.length
        (insert m.current_index m.exhausted_indices) 0 m.credentials.length = some idx) :
    rotate_to_next m = (true, { mark_current_exhausted m with current_index := idx }) := by
  simp only [rotate_to_next, mark_current_exhausted] at h ⊢
  rw [h]

/-- If the post-marking exhausted set covers every pool index, rotation
fails and only adds the current index to the exhausted set. -/
lemma rotate_to_next_fails_of_all_exhausted {m : APIManager}
    (hn : 0 < m.credentials.length)
    (hall : ∀ j, j < m.credentials.length →
      j ∈ insert m.current_index m.exhausted_indices) :
    rotate_to_next m = (false, mark_current_exhausted m) := by
  apply rotate_to_next_of_none
  apply (find_next_index_eq_none _ _).mpr
  intro k _
  exact hall _ (Nat.mod_lt _ hn)

/-- A state whose exhausted set covers every pool index reports no
available keys. -/
lemma has_available_false_of_covering {m : APIManager}
    (hall : ∀ j, j < m.credentials.length → j ∈ m.exhausted_indices) :
    has_available_keys m = false := by
  have hsub : Finset.range m.credentials.length ⊆ m.exhausted_indices := by
    intro j hj
    exact hall j (Finset.mem_range.mp hj)
  have hcard : m.credentials.length ≤ m.exhausted_indices.card := by
    calc m.credentials.length = (Finset.range m.credentials.length).card :=
          (Finset.card_range _).symm
      _ ≤ m.exhausted_indices.card := Finset.card_le_card hsub
  simp only [has_available_keys, decide_eq_false_iff_not]
  omega

/-- Each rotator operation preserves full exhaustion: the pool is
unchanged, every index stays exhausted, and the current index stays in
range. -/
lemma applyOp_preserves_covering {n : Nat} (hn : 0 < n) {m : APIManager}
    (hlen : m.credentials.length = n)
    (hall : ∀ j, j < n → j ∈ m.exhausted_indices)
    (hc : m.current_index < n) (op : RotOp) :
    (applyOp m op).credentials.length = n ∧
    (∀ j, j < n → j ∈ (applyOp m op).exhausted_indices) ∧
    (applyOp m op).current_index < n := by
  cases op with
  | get => exact ⟨hlen, hall, hc⟩
  | mark =>
    exact ⟨hlen, fun j hj => Finset.mem_insert_of_mem (hall j hj), hc⟩
  | rotate =>
    have hr : rotate_to_next m = (false, mark_current_exhausted m) := by
      apply rotate_to_next_fails_of_all_exhausted (by omega)
      intro j hj
      exact Finset.mem_insert_of_mem (hall j (by omega))
    simp only [applyOp, hr, mark_current_exhausted]
    exact ⟨hlen, fun j hj => Finset.mem_insert_of_mem (hall j hj), hc⟩

/-- Sequences of rotator operations preserve full exhaustion. -/
lemma applyOps_preserves_covering {n : Nat} (hn : 0 < n) {m : APIManager}
    (hlen : m.credentials.length = n)
    (hall : ∀ j, j < n → j ∈ m.exhausted_indices)
    (hc : m.current_index < n) (ops : List RotOp) :
    (applyOps m ops).credentials.length = n ∧
    (∀ j, j < n → j ∈ (applyOps m ops).exhausted_indices) ∧
    (applyOps m ops).current_index < n := by
  induction ops generalizing m with
  | nil => exact ⟨hlen, hall, hc⟩
  | cons op rest ih =>
    obtain ⟨h1, h2, h3⟩ := applyOp_preserves_covering hn hlen hall hc op
    exact ih h1 h2 h3

/-- C4: `rotate_to_next` marks the current index exhausted, then moves to
the first non-exhausted index in the circular scan from `current_index + 1`
and returns true; it returns false, leaving `current_index` unchanged, if
and only if every pool index is exhausted after the marking. -/
theorem rotate_to_next_spec (m : APIManager) (hn : 0 < m.credentials.length) :
    (rotate_to_next m).2.exhausted_indices = insert m.current_index m.exhausted_indices ∧
    (rotate_to_next m).2.credentials = m.credentials ∧
    ((rotate_to_next m).1 = false ↔
      ∀ j, j < m.credentials.length → j ∈ insert m.current_index m.exhausted_indices) ∧
    ((rotate_to_next m).1 = false → (rotate_to_next m).2.current_index = m.current_index) ∧
    ((rotate_to_next m).1 = true →
      ∃ i, i < m.credentials.length ∧
        (rotate_to_next m).2.current_index =
          (m.current_index + 1 + i) % m.credentials.length ∧
        (rotate_to_next m).2.current_index ∉ insert m.current_index m.exhausted_indices ∧
        ∀ i', i' < i →
          (m.current_index + 1 + i') % m.credentials.length ∈
            insert m.current_index m.exhausted_indices) := by
  cases hfind : find_next_index m.current_index m.credentials.length
      (insert m.current_index m.exhausted_indices) 0 m.credentials.length with
  | none =>
    have hr := rotate_to_next_of_none hfind
    have hall : ∀ j, j < m.credentials.length →
        j ∈ insert m.current_index m.exhausted_indices := by
      intro j hj
      obtain ⟨i, hi, hij⟩ := circular_scan_surjective hn m.current_index j hj
      have := (find_next_index_eq_none _ _).mp hfind i hi
      simpa [hij] using this
    refine ⟨by rw [hr]; rfl, by rw [hr]; rfl, ?_, ?_, ?_⟩
    · rw [hr]
      exact ⟨fun _ => hall, fun _ => rfl⟩
    · rw [hr]
      intro _
      rfl
    · rw [hr]
      intro h
      exact absurd h (by simp)
  | some idx =>
    have hr := rotate_to_next_of_some hfind
    obtain ⟨k, hk, hv, hvnot, hmin⟩ := find_next_index_eq_some _ _ _ hfind
    have hidxlt : idx < m.credentials.length := by
      rw [hv]
      exact Nat.mod_lt _ hn
    refine ⟨by rw [hr]; rfl, by rw [hr]; rfl, ?_, ?_, ?_⟩
    · rw [hr]
      constructor
      · intro h
        exact absurd h (by simp)
      · intro hall
        exact ((hvnot (hall idx hidxlt)).elim)
    · rw [hr]
      intro h
      exact absurd h (by simp)
    · rw [hr]
      intro _
      refine ⟨k, hk, ?_, by simpa using hvnot, ?_⟩
      · show idx = _
        simpa using hv
      · intro i' hi'
        simpa using hmin i' hi'

/-- Witness for C4 at a concrete two-credential pool. -/
theorem rotate_to_next_spec_witness :
    0 < mgr2.credentials.length ∧
    ((rotate_to_next mgr2).1 = false ↔
      ∀ j, j < mgr2.credentials.length →
        j ∈ insert mgr2.current_index mgr2.exhausted_indices) :=
  ⟨by decide, (rotate_to_next_spec mgr2 (by decide)).2.2.1⟩

/-- C5: once `rotate_to_next` returns false, `has_available_keys` is false
and stays false under every sequence of get/mark/rotate operations, until
`reset_exhausted` clears the exhausted set and returns the index to 0,
making keys available again. -/
theorem exhausted_until_reset (m : APIManager) (ops : List RotOp)
    (hc : m.current_index < m.credentials.length)
    (hfalse : (rotate_to_next m).1 = false) :
    has_available_keys (rotate_to_next m).2 = false ∧
    has_available_keys (applyOps (rotate_to_next m).2 ops) = false ∧
    (reset_exhausted (applyOps (rotate_to_next m).2 ops)).exhausted_indices = ∅ ∧
    (reset_exhausted (applyOps (rotate_to_next m).2 ops)).current_index = 0 ∧
    has_available_keys (reset_exhausted (applyOps (rotate_to_next m).2 ops)) = true := by
  have hn : 0 < m.credentials.length := by omega
  have hnone : find_next_index m.current_index m.credentials.length
      (insert m.current_index m.exhausted_indices) 0 m.credentials.length = none := by
    cases hfind : find_next_index m.current_index m.credentials.length
        (insert m.current_index m.exhausted_indices) 0 m.credentials.length with
    | none => rfl
    | some idx =>
      have hr := rotate_to_next_of_some hfind
      rw [hr] at hfalse
      simp at hfalse
  have hr := rotate_to_next_of_none hnone
  have hall : ∀ j, j < m.credentials.length →
      j ∈ (mark_current_exhausted m).exhausted_indices := by
    intro j hj
    obtain ⟨i, hi, hij⟩ := circular_scan_surjective hn m.current_index j hj
    have := (find_next_index_eq_none _ _).mp hnone i hi
    simp only [Nat.zero_add] at this
    rw [hij] at this
    simpa [mark_current_exhausted] using this
  have hlen : (mark_current_exhausted m).credentials.length = m.credentials.length := rfl
  have hc' : (mark_current_exhausted m).current_index < m.credentials.length := hc
  obtain ⟨hlen2, hall2, hc2⟩ :=
    applyOps_preserves_covering hn hlen hall hc' ops
  rw [hr]
  refine ⟨has_available_false_of_covering (by rw [hlen]; exact hall), ?_, rfl, rfl, ?_⟩
  · exact has_available_false_of_covering (by rw [hlen2]; exact hall2)
  · simp only [has_available_keys, reset_exhausted, Finset.card_empty,
      decide_eq_true_eq]
    omega

/-- Witness for C5 at a concrete pool where rotation has failed. -/
theorem exhausted_until_reset_witness :
    (mgrEx.current_index < mgrEx.credentials.length ∧
      (rotate_to_next mgrEx).1 = false) ∧
    has_available_keys
      (applyOps (rotate_to_next mgrEx).2 [RotOp.get, RotOp.mark, RotOp.rotate]) = false :=
  ⟨⟨by decide, by decide⟩,
    (exhausted_until_reset mgrEx [RotOp.get, RotOp.mark, RotOp.rotate]
      (by decide) (by decide)).2.1⟩

/-! ## Checkpoint store lemmas -/

/-- C6: for an in-progress tracker, `save` then `load` on a fresh tracker
returns true and reproduces the completed set, the stats, the seen-hash
set, and the image counter. -/
theorem save_load_roundtrip (t : TrackerState) (now d0 : String)
    (hstatus : t.status = "in_progress") :
    (load initTracker d0 (FileRead.parsed (save t now).2)).1 = true ∧
    (load initTracker d0 (FileRead.parsed (save t now).2)).2.completed = t.completed ∧
    (load initTracker d0 (FileRead.parsed (save t now).2)).2.stats = t.stats ∧
    (load initTracker d0 (FileRead.parsed (save t now).2)).2.seen_hashes = t.seen_hashes ∧
    (load initTracker d0 (FileRead.parsed (save t now).2)).2.image_counter = t.image_counter := by
  have hcond : ¬ ((save t now).2.status = "completed") := by
    show ¬ (t.status = "completed")
    rw [hstatus]
    decide
  simp only [load]
  rw [if_neg hcond]
  refine ⟨rfl, ?_, rfl, ?_, rfl⟩
  · show ((save t now).2.completed).toFinset = t.completed
    show (t.completed.sort pairLex).toFinset = t.completed
    exact Finset.sort_toFinset _ _
  · show ((save t now).2.seen_hashes).toFinset = t.seen_hashes
    show (t.seen_hashes.sort (· ≤ ·)).toFinset = t.seen_hashes
    exact Finset.sort_toFinset _ _

/-- Witness for C6 at a concrete mid-run tracker. -/
theorem save_load_roundtrip_witness :
    sampleTracker.status = "in_progress" ∧
    (load initTracker "d" (FileRead.parsed (save sampleTracker "n").2)).1 = true ∧
    (load initTracker "d" (FileRead.parsed (save sampleTracker "n").2)).2.completed =
      sampleTracker.completed :=
  ⟨rfl, (save_load_roundtrip sampleTracker "n" "d" rfl).1,
    (save_load_roundtrip sampleTracker "n" "d" rfl).2.1⟩

lemma optStrOfJson_roundtrip (o : Option String) :
    optStrOfJson (some (jsonOfOptStr o)) = o := by
  cases o <;> rfl

lemma natOfJson_cast (k : Nat) : natOfJson (Json.num k) = k := by
  simp [natOfJson]

lemma completedEntries_map (l : List (Nat × Nat)) :
    completedEntries (l.map (fun p =>
      Json.obj [("query_index", Json.num p.1), ("filter_index", Json.num p.2)])) =
      Except.ok l := by
  induction l with
  | nil => rfl
  | cons p rest ih =>
    simp [completedEntries, completedEntry, jLookup, List.find?, jHashable,
      natOfJson, ih, bind, Except.bind]

lemma all_hashable_strs (l : List String) :
    (l.map Json.str).all jHashable = true := by
  induction l with
  | nil => rfl
  | cons s rest ih => simp [jHashable, ih]

lemma map_str_round (l : List String) :
    List.map (strOfJson ∘ Json.str) l = l := by
  induction l with
  | nil => rfl
  | cons s rest ih => simp [Function.comp, strOfJson, ih]

/-- On schema-typed documents (everything `save` writes), the full dynamic
model never raises and coincides with the typed `load`. -/
lemma loadJson_agrees_on_schema (t : TrackerState) (now : String) (d : CheckpointData) :
    loadJson t now (JsonFile.decoded (jsonOfCheckpoint d)) =
      Except.ok (load t now (FileRead.parsed d)) := by
  obtain ⟨st, sa, ua, qf, tq, tc, pq, pf, comp, stats, seen, ic⟩ := d
  obtain ⟨sv, dv, ev⟩ := stats
  by_cases h : st = "completed"
  · simp [loadJson, jsonOfCheckpoint, load, jLookup, isCompletedStatus, h]
  · cases sa <;> cases ua <;> cases qf <;>
      simp [loadJson, jsonOfCheckpoint, load, jLookup, isCompletedStatus, h,
        jsonOfOptStr, optStrOfJson, statusOfJsonD, strOfJson, positionOfJson,
        natOfJsonD, natOfJson, completedOfJson, completedEntries_map,
        seenHashesOfJson, all_hashable_strs, map_str_round, statsOfJson,
        bind, Except.bind, Function.comp]

/-- C8 counter-evidence: the caught paths behave as claimed (absent,
unreadable or undecodable file, or completed status: false and fresh), but
`load` only catches `json.JSONDecodeError` and `IOError`, so a readable
file holding the valid JSON document `[]` crashes with `AttributeError` at
`data.get('status')`, and an in-progress document whose completed entry
lacks its keys crashes with `KeyError` — a corrupt checkpoint that decodes
as JSON does cause a crash instead of a fresh start. -/
theorem corrupt_json_crashes_load :
    loadJson initTracker "d" (JsonFile.decoded badListDoc) = Except.error () ∧
    loadJson initTracker "d" (JsonFile.decoded badCompletedDoc) = Except.error () ∧
    loadJson initTracker "d" JsonFile.absent =
      Except.ok (false, { initTracker with started_at := some "d" }) ∧
    loadJson initTracker "d" JsonFile.unreadable =
      Except.ok (false, { initTracker with started_at := some "d" }) ∧
    loadJson initTracker "d"
        (JsonFile.decoded (jsonOfCheckpoint (mark_finished sampleTracker "n").2)) =
      Except.ok (false, { initTracker with started_at := some "d" }) := by
  exact ⟨rfl, rfl, rfl, rfl, rfl⟩

/-- C2 counter-evidence: on the `KeyboardInterrupt` path, `main` saves and
then falls through to `mark_finished`, so the checkpoint on disk ends with
status completed, and the next run's `load` returns false and discards the
non-empty completed set instead of resuming. -/
theorem interrupt_epilogue_not_resumable :
    (interruptedEpilogue sampleTracker "t2" "t3").2.status = "completed" ∧
    (load initTracker "t4"
      (FileRead.parsed (interruptedEpilogue sampleTracker "t2" "t3").2)).1 = false ∧
    (load initTracker "t4"
      (FileRead.parsed (interruptedEpilogue sampleTracker "t2" "t3").2)).2.completed = ∅ ∧
    sampleTracker.completed ≠ ∅ := by
  refine ⟨rfl, ?_, ?_, by decide⟩
  · simp [load, interruptedEpilogue, mark_finished, save]
  · simp [load, interruptedEpilogue, mark_finished, save, initTracker]

/-! ## Downloader lemmas -/

/-- First offer of unseen content with a successful disk write: the hash is
recorded, the counter is bumped, and a save is counted. -/
lemma save_image_new_ok (t : TrackerState) (bs : BatchStats) (content : ByteContent)
    (url ctype pfx : String)
    (hnew : is_hash_seen t (compute_hash content) = false) :
    save_image t bs content url ctype pfx true =
      (increment_saved (increment_counter (add_hash t (compute_hash content))).1,
        { bs with saved := bs.saved + 1 },
        some (mkFilename pfx ((increment_counter (add_hash t (compute_hash content))).2)
          url ctype)) := by
  simp only [save_image]
  rw [if_neg (by simp [hnew])]
  simp

/-- First offer of unseen content with a failing disk write: the hash is
recorded, the counter is bumped, and an error is counted. -/
lemma save_image_new_ioFail (t : TrackerState) (bs : BatchStats) (content : ByteContent)
    (url ctype pfx : String)
    (hnew : is_hash_seen t (compute_hash content) = false) :
    save_image t bs content url ctype pfx false =
      (increment_errors (increment_counter (add_hash t (compute_hash content))).1,
        { bs with errors := bs.errors + 1 }, none) := by
  simp only [save_image]
  rw [if_neg (by simp [hnew])]
  rfl

/-- Offer of already-seen content: only the duplicate counters move. -/
lemma save_image_seen (t : TrackerState) (bs : BatchStats) (content : ByteContent)
    (url ctype pfx : String) (ioOk : Bool)
    (hseen : is_hash_seen t (compute_hash content) = true) :
    save_image t bs content url ctype pfx ioOk =
      (increment_duplicates t, { bs with duplicates := bs.duplicates + 1 }, none) := by
  simp only [save_image]
  rw [if_pos hseen]

/-- `save_image` never removes a hash from the seen set. -/
lemma save_image_seen_mono {t : TrackerState} {bs : BatchStats} {c : ByteContent}
    {u ct pfx : String} {io : Bool} {h : String}
    (hmem : is_hash_seen t h = true) :
    is_hash_seen (save_image t bs c u ct pfx io).1 h = true := by
  simp only [is_hash_seen, decide_eq_true_eq] at hmem ⊢
  simp only [save_image]
  split
  · simpa [increment_duplicates] using hmem
  · split
    · simp only [increment_saved, increment_counter, add_hash, Finset.mem_insert]
      exact Or.inr hmem
    · simp only [increment_errors, increment_counter, add_hash, Finset.mem_insert]
      exact Or.inr hmem

/-- A save-then-load round trip preserves the seen-hash set of an
in-progress tracker. -/
lemma load_save_seen_hashes {t : TrackerState} (now d0 : String)
    (hstatus : t.status = "in_progress") :
    (load initTracker d0 (FileRead.parsed (save t now).2)).2.seen_hashes = t.seen_hashes := by
  have hcond : ¬ ((save t now).2.status = "completed") := by
    show ¬ (t.status = "completed")
    rw [hstatus]
    decide
  simp only [load]
  rw [if_neg hcond]
  show ((save t now).2.seen_hashes).toFinset = t.seen_hashes
  show (t.seen_hashes.sort (· ≤ ·)).toFinset = t.seen_hashes
  exact Finset.sort_toFinset _ _

/-- C7: byte-identical content offered twice, under any two source URLs:
the first offer is saved (counter and saved stat move up by one), the
second is rejected as a duplicate by content hash alone (duplicate stat
moves up, counter and saved stat unchanged). -/
theorem duplicate_bytes_detected (t : TrackerState) (bs1 bs2 : BatchStats)
    (content : ByteContent) (u1 u2 ct1 ct2 pfx : String) (io2 : Bool)
    (hnew : is_hash_seen t (compute_hash content) = false) :
    ((save_image t bs1 content u1 ct1 pfx true).2.2).isSome = true ∧
    (save_image t bs1 content u1 ct1 pfx true).1.image_counter = t.image_counter + 1 ∧
    (save_image t bs1 content u1 ct1 pfx true).1.stats.images_saved =
      t.stats.images_saved + 1 ∧
    (save_image t bs1 content u1 ct1 pfx true).2.1.saved = bs1.saved + 1 ∧
    (save_image (save_image t bs1 content u1 ct1 pfx true).1
        bs2 content u2 ct2 pfx io2).2.2 = none ∧
    (save_image (save_image t bs1 content u1 ct1 pfx true).1
        bs2 content u2 ct2 pfx io2).1.image_counter =
      (save_image t bs1 content u1 ct1 pfx true).1.image_counter ∧
    (save_image (save_image t bs1 content u1 ct1 pfx true).1
        bs2 content u2 ct2 pfx io2).1.stats.images_saved =
      (save_image t bs1 content u1 ct1 pfx true).1.stats.images_saved ∧
    (save_image (save_image t bs1 content u1 ct1 pfx true).1
        bs2 content u2 ct2 pfx io2).1.stats.duplicates_skipped =
      (save_image t bs1 content u1 ct1 pfx true).1.stats.duplicates_skipped + 1 ∧
    (save_image (save_image t bs1 content u1 ct1 pfx true).1
        bs2 content u2 ct2 pfx io2).2.1.duplicates = bs2.duplicates + 1 := by
  have h1 := save_image_new_ok t bs1 content u1 ct1 pfx hnew
  have hseen2 : is_hash_seen (save_image t bs1 content u1 ct1 pfx true).1
      (compute_hash content) = true := by
    rw [h1]
    simp [is_hash_seen, increment_saved, increment_counter, add_hash]
  have h2 := save_image_seen _ bs2 content u2 ct2 pfx io2 hseen2
  rw [h2, h1]
  simp [increment_saved, increment_counter, add_hash, increment_duplicates]

/-- Witness for C7 at a fresh tracker and concrete bytes under two URLs. -/
theorem duplicate_bytes_detected_witness :
    is_hash_seen initTracker (compute_hash sampleContent) = false ∧
    (save_image (save_image initTracker batchZero sampleContent "urlA" ".jpg" "pothole" true).1
        batchZero sampleContent "urlB" ".jpg" "pothole" true).2.2 = none ∧
    (save_image (save_image initTracker batchZero sampleContent "urlA" ".jpg" "pothole" true).1
        batchZero sampleContent "urlB" ".jpg" "pothole" true).1.image_counter =
      (save_image initTracker batchZero sampleContent "urlA" ".jpg" "pothole" true).1.image_counter :=
  ⟨by decide,
    (duplicate_bytes_detected initTracker batchZero batchZero sampleContent
      "urlA" "urlB" ".jpg" ".jpg" "pothole" true (by decide)).2.2.2.2.1,
    (duplicate_bytes_detected initTracker batchZero batchZero sampleContent
      "urlA" "urlB" ".jpg" ".jpg" "pothole" true (by decide)).2.2.2.2.2.1⟩

/-- C10: when the disk write of accepted content fails with `IOError`, the
hash stays recorded and the counter stays bumped (no rollback); the errors
stat moves up and the saved stat does not; from then on the same bytes are
classified as a duplicate by every later offer, the seen set survives any
later `save_image` call, and it survives a save/load round trip. -/
theorem io_failure_keeps_hash (t : TrackerState) (bs : BatchStats)
    (content : ByteContent) (url ct pfx : String)
    (hnew : is_hash_seen t (compute_hash content) = false) :
    (save_image t bs content url ct pfx false).2.2 = none ∧
    is_hash_seen (save_image t bs content url ct pfx false).1 (compute_hash content) = true ∧
    (save_image t bs content url ct pfx false).1.image_counter = t.image_counter + 1 ∧
    (save_image t bs content url ct pfx false).1.stats.errors = t.stats.errors + 1 ∧
    (save_image t bs content url ct pfx false).1.stats.images_saved = t.stats.images_saved ∧
    (∀ t₂ bs₂ u₂ ct₂ io₂, is_hash_seen t₂ (compute_hash content) = true →
      (save_image t₂ bs₂ content u₂ ct₂ pfx io₂).2.2 = none ∧
      (save_image t₂ bs₂ content u₂ ct₂ pfx io₂).1.image_counter = t₂.image_counter ∧
      (save_image t₂ bs₂ content u₂ ct₂ pfx io₂).1.stats.images_saved =
        t₂.stats.images_saved ∧
      (save_image t₂ bs₂ content u₂ ct₂ pfx io₂).1.stats.duplicates_skipped =
        t₂.stats.duplicates_skipped + 1) ∧
    (∀ t₂ bs₂ c₂ u₂ ct₂ io₂, is_hash_seen t₂ (compute_hash content) = true →
      is_hash_seen (save_image t₂ bs₂ c₂ u₂ ct₂ pfx io₂).1 (compute_hash content) = true) ∧
    (∀ t₂ now d0, is_hash_seen t₂ (compute_hash content) = true →
      t₂.status = "in_progress" →
      is_hash_seen (load initTracker d0 (FileRead.parsed (save t₂ now).2)).2
        (compute_hash content) = true) := by
  have h1 := save_image_new_ioFail t bs content url ct pfx hnew
  refine ⟨by rw [h1], ?_, by rw [h1]; rfl, by rw [h1]; rfl, by rw [h1]; rfl, ?_, ?_, ?_⟩
  · rw [h1]
    simp [is_hash_seen, increment_errors, increment_counter, add_hash]
  · intro t₂ bs₂ u₂ ct₂ io₂ hseen
    rw [save_image_seen _ _ _ _ _ _ _ hseen]
    exact ⟨rfl, rfl, rfl, rfl⟩
  · intro t₂ bs₂ c₂ u₂ ct₂ io₂ hseen
    exact save_image_seen_mono hseen
  · intro t₂ now d0 hseen hstatus
    rw [is_hash_seen, load_save_seen_hashes now d0 hstatus]
    exact hseen

/-- Witness for C10 at a fresh tracker and concrete bytes with a failing
write. -/
theorem io_failure_keeps_hash_witness :
    is_hash_seen initTracker (compute_hash sampleContent) = false ∧
    (save_image initTracker batchZero sampleContent "urlA" ".jpg" "pothole" false).2.2 = none ∧
    is_hash_seen (save_image initTracker batchZero sampleContent "urlA" ".jpg" "pothole" false).1
      (compute_hash sampleContent) = true :=
  ⟨by decide,
    (io_failure_keeps_hash initTracker batchZero sampleContent "urlA" ".jpg" "pothole"
      (by decide)).1,
    (io_failure_keeps_hash initTracker batchZero sampleContent "urlA" ".jpg" "pothole"
      (by decide)).2.1⟩

/-! ## Orchestrator lemmas -/

/-- A unit already in the completed set is skipped: no fetch, no download,
no save, no state change. -/
lemma processUnit_skip {t : TrackerState} {m : APIManager} {qIdx fIdx : Nat}
    {query : String} {filters : Filters} {responses : List PageResponse}
    {env : Item → ItemOutcome} {pfx : String} {count : Nat} {now : String}
    (h : is_combination_done t qIdx fIdx = true) :
    processUnit t m qIdx fIdx query filters responses env pfx count now =
      (t, m, none, ⟨false, false, false, false⟩) := by
  simp [processUnit, h]

lemma save_image_completed_eq (t : TrackerState) (bs : BatchStats) (c : ByteContent)
    (u ct pfx : String) (io : Bool) :
    (save_image t bs c u ct pfx io).1.completed = t.completed := by
  simp only [save_image]
  split
  · rfl
  · split
    · rfl
    · rfl

lemma process_image_completed_eq (env : Item → ItemOutcome) (pfx : String)
    (t : TrackerState) (bs : BatchStats) (img : Item) :
    (process_image env pfx t bs img).1.completed = t.completed := by
  simp only [process_image]
  split
  · rfl
  · split
    · rfl
    · apply save_image_completed_eq

lemma process_all_completed_eq (env : Item → ItemOutcome) (pfx : String) :
    ∀ (images : List Item) (t : TrackerState) (bs : BatchStats),
      (process_all env pfx t bs images).1.completed = t.completed := by
  intro images
  induction images with
  | nil => intro t bs; rfl
  | cons img rest ih =>
    intro t bs
    have hstep := ih (process_image env pfx t bs img).1 (process_image env pfx t bs img).2.1
    simp only [process_all, List.foldl_cons] at hstep ⊢
    exact hstep.trans (process_image_completed_eq env pfx t bs img)

/-- One orchestrator iteration never removes a unit from the completed set. -/
lemma processUnit_completed_subset (t : TrackerState) (m : APIManager) (qIdx fIdx : Nat)
    (query : String) (filters : Filters) (responses : List PageResponse)
    (env : Item → ItemOutcome) (pfx : String) (count : Nat) (now : String) :
    t.completed ⊆
      (processUnit t m qIdx fIdx query filters responses env pfx count now).1.completed := by
  by_cases hdone : is_combination_done t qIdx fIdx = true
  · rw [processUnit_skip hdone]
  · have hnd : is_combination_done t qIdx fIdx = false := by
      simpa using hdone
    simp only [processUnit, hnd, Bool.false_eq_true, if_false]
    cases hsr : (search_images responses m count).1 with
    | error e =>
      simp only [hsr, update_position]
      exact Finset.Subset.refl _
    | ok images =>
      simp only [hsr]
      split
      · intro x hx
        simp only [save, mark_combination_complete, update_position, add_no_results,
          Finset.mem_insert]
        exact Or.inr hx
      · intro x hx
        simp only [save, mark_combination_complete, update_position, Finset.mem_insert]
        rw [process_all_completed_eq]
        simp only [update_position]
        exact Or.inr hx

/-- Done-ness of any unit survives an orchestrator iteration over any unit. -/
lemma processUnit_preserves_done {t : TrackerState} {q f : Nat} (m : APIManager)
    (g h : Nat) (query : String) (filters : Filters) (responses : List PageResponse)
    (env : Item → ItemOutcome) (pfx : String) (count : Nat) (now : String)
    (hdone : is_combination_done t q f = true) :
    is_combination_done
      (processUnit t m g h query filters responses env pfx count now).1 q f = true := by
  simp only [is_combination_done, decide_eq_true_eq] at hdone ⊢
  exact processUnit_completed_subset t m g h query filters responses env pfx count now hdone

/-- C9: a unit already in the completed set at the start of its iteration
causes no fetch, no download, no save, and no change at all to the tracker
or rotator state. -/
theorem completed_unit_skipped (t : TrackerState) (m : APIManager) (qIdx fIdx : Nat)
    (query : String) (filters : Filters) (responses : List PageResponse)
    (env : Item → ItemOutcome) (pfx : String) (count : Nat) (now : String)
    (h : is_combination_done t qIdx fIdx = true) :
    processUnit t m qIdx fIdx query filters responses env pfx count now =
      (t, m, none, ⟨false, false, false, false⟩) :=
  processUnit_skip h

/-- Witness for C9 at a tracker with unit (0, 0) completed. -/
theorem completed_unit_skipped_witness :
    is_combination_done (mark_combination_complete initTracker 0 0) 0 0 = true ∧
    processUnit (mark_combination_complete initTracker 0 0) mgr1 0 0 "q" ⟨none, none⟩ []
        (fun _ => ItemOutcome.fail) "pothole" 10 "now" =
      (mark_combination_complete initTracker 0 0, mgr1, none, ⟨false, false, false, false⟩) :=
  ⟨by decide,
    completed_unit_skipped (mark_combination_complete initTracker 0 0) mgr1 0 0 "q"
      ⟨none, none⟩ [] (fun _ => ItemOutcome.fail) "pothole" 10 "now" (by decide)⟩

/-- C1: a unit whose fetch succeeds with an empty item list gets a
no-results entry, lands in the completed set, triggers a checkpoint save,
does not break the loop, and — once in the completed set — is skipped by
any later iteration and stays done across iterations over other units. -/
theorem empty_result_unit_completes (t : TrackerState) (m : APIManager) (q f : Nat)
    (query : String) (filters : Filters) (responses : List PageResponse)
    (env : Item → ItemOutcome) (pfx : String) (count : Nat) (now : String)
    (hnd : is_combination_done t q f = false)
    (hfetch : (search_images responses m count).1 = Except.ok []) :
    ((⟨q, f, query, filters⟩ : NoResultEntry) ∈
      (processUnit t m q f query filters responses env pfx count now).1.no_results_list) ∧
    is_combination_done
      (processUnit t m q f query filters responses env pfx count now).1 q f = true ∧
    (processUnit t m q f query filters responses env pfx count now).2.2.1 =
      some (save (mark_combination_complete
        (add_no_results (update_position t q f) q f query filters) q f) now).2 ∧
    (processUnit t m q f query filters responses env pfx count now).2.2.2 =
      ⟨true, false, true, false⟩ ∧
    (∀ t₂ m₂ responses₂ env₂ count₂ now₂,
      is_combination_done t₂ q f = true →
      processUnit t₂ m₂ q f query filters responses₂ env₂ pfx count₂ now₂ =
        (t₂, m₂, none, ⟨false, false, false, false⟩)) ∧
    (∀ t₂ m₂ g h responses₂ env₂ count₂ now₂,
      is_combination_done t₂ q f = true →
      is_combination_done
        (processUnit t₂ m₂ g h query filters responses₂ env₂ pfx count₂ now₂).1 q f = true) := by
  simp only [processUnit, hnd, Bool.false_eq_true, if_false, hfetch, List.isEmpty_nil,
    if_true]
  refine ⟨?_, ?_, by trivial, by trivial, ?_, ?_⟩
  · simp [save, mark_combination_complete, update_position, add_no_results]
  · simp [is_combination_done, save, mark_combination_complete, update_position]
  · intro t₂ m₂ responses₂ env₂ count₂ now₂ hdone
    exact processUnit_skip hdone
  · intro t₂ m₂ g h responses₂ env₂ count₂ now₂ hdone
    exact processUnit_preserves_done m₂ g h query filters responses₂ env₂ pfx count₂ now₂ hdone

/-- Witness for C1 at a fresh tracker whose fetch legitimately returns an
empty page. -/
theorem empty_result_unit_completes_witness :
    (is_combination_done initTracker 0 0 = false ∧
      (search_images [PageResponse.ok []] mgr1 10).1 = Except.ok []) ∧
    is_combination_done
      (processUnit initTracker mgr1 0 0 "q" ⟨none, none⟩ [PageResponse.ok []]
        (fun _ => ItemOutcome.fail) "pothole" 10 "now").1 0 0 = true :=
  ⟨⟨by decide, rfl⟩,
    (empty_result_unit_completes initTracker mgr1 0 0 "q" ⟨none, none⟩ [PageResponse.ok []]
      (fun _ => ItemOutcome.fail) "pothole" 10 "now" (by decide) rfl).2.1⟩

/-- C3 counter-evidence: a transient transport error on the first page
makes `search_images` return the same value as a legitimately empty search
(the empty list — there is no distinct error signal), and the orchestrator
then marks the failed unit complete instead of leaving it for retry. -/
theorem transient_error_conflated_with_no_results :
    search_images [PageResponse.transportError] mgr1 10 = (Except.ok [], mgr1) ∧
    search_images [PageResponse.ok []] mgr1 10 = (Except.ok [], mgr1) ∧
    is_combination_done
      (processUnit initTracker mgr1 0 0 "q" ⟨none, none⟩ [PageResponse.transportError]
        (fun _ => ItemOutcome.fail) "pothole" 10 "now").1 0 0 = true ∧
    (processUnit initTracker mgr1 0 0 "q" ⟨none, none⟩ [PageResponse.transportError]
      (fun _ => ItemOutcome.fail) "pothole" 10 "now").2.2.2 = ⟨true, false, true, false⟩ := by
  refine ⟨rfl, rfl, by decide, rfl⟩

end CrackScrapper
